import Mathlib

/-!
A shallow embedding of the `scrappy-do` crawl engine, translated from the
repository sources:

* `src/callback.rs`  — `Indeterminate`, `Callback`, `Callback::run`
* `src/handler.rs`   — the `Handler` trait (its `handle` capability)
* `src/spider.rs`    — `WebBuilder`, `Web`, `Web::crawl`, `PendingCallback`,
                       `PendingCallback::run`, the crate-private `Error` enum
* `src/util.rs`      — `ParseError`, `get_unique_element`
* `scrappy_do-codegen/src/lib.rs` — the channel and yield shape produced by
                       the `#[handle]` attribute

External collaborators are modelled at their interface boundary:
`reqwest::Client::execute` becomes a function `Request → Except FetchError
Response`, tokio mpsc channels become a capacity descriptor (`ChannelSpec`)
plus explicit buffer state (`CrawlState`), and the handler's lazy
`Receiver<Indeterminate>` stream is consumed in FIFO order, so a finished
handler invocation is modelled by the list of outcomes it produced, in
production order.  Logging (`slog`) has no observable effect on the data flow
and is dropped.
-/

/-- An opaque network-request descriptor (external `reqwest::Request`).  The
crate only ever moves it around and prints its URL, so the URL is the only
observable field. -/
structure Request where
  url : String

/-- An opaque network response (external `reqwest::Response`). -/
structure Response where
  url : String
  body : String

/-- A transport-level failure (external `reqwest::Error`), kept opaque. -/
structure FetchError where
  message : String

/-- `Callback` (`src/callback.rs:33-39`): `{ request, handler, context }`.
The source stores the handler type-erased as `Box<dyn Handler<I, C>>`; here
the erased handler value has type `H`, and the trait's `handle` capability is
supplied separately (see `Handler` below) where the source does dynamic
dispatch. -/
structure Callback (I C H : Type) where
  handler : H
  request : Request
  context : C

/-- `Callback::new` (`src/callback.rs:48-57`). -/
def Callback.new {I C H : Type} (handler : H) (request : Request) (context : C) :
    Callback I C H :=
  { handler := handler, request := request, context := context }

/-- `Callback::target` (`src/callback.rs:60-62`). -/
def Callback.target {I C H : Type} (cb : Callback I C H) : Request :=
  cb.request

/-- `Indeterminate<I, C>` (`src/callback.rs:12-18`): a produced item or a
follow-up callback. -/
inductive Indeterminate (I C H : Type) where
  | item : I → Indeterminate I C H
  | callback : Callback I C H → Indeterminate I C H

/-- The `Handler` trait capability (`src/handler.rs:101-109`):
`handle(self, client, response, context, logger) → Receiver<Indeterminate>`.
The client is only forwarded into user code and the logger only logs, so the
modelled capability maps the response and the stored context to the finite
list of outcomes the handler invocation pushes through its receiver, in
production order. -/
def Handler (I C H : Type) : Type :=
  H → Response → C → List (Indeterminate I C H)

/-- The transport collaborator, `reqwest::Client` reduced to its `execute`
interface: a request either yields a response or a transport failure. -/
def Client : Type :=
  Request → Except FetchError Response

/-- `Callback::run` (`src/callback.rs:65-75`): execute the request with the
client; on transport failure return the error and never invoke the handler;
on success invoke the handler with the response and the stored context and
return its outcome stream. -/
def Callback.run {I C H : Type} (client : Client) (handle : Handler I C H)
    (cb : Callback I C H) : Except FetchError (List (Indeterminate I C H)) :=
  match client cb.request with
  | Except.error e => Except.error e
  | Except.ok resp => Except.ok (handle cb.handler resp cb.context)

/-- `PendingCallback` (`src/spider.rs:236-241`): a `Callback` plus the two
channel senders it was bound to.  tokio senders are clones of a channel
handle; cloning preserves which channel they refer to, so a sender is
modelled by the identity of its channel. -/
structure PendingCallback (I C H : Type) where
  inner : Callback I C H
  task_sender : Nat
  item_sender : Nat

/-- The crate-private `Error` enum (`src/spider.rs:17-29`).  A tokio
`SendError` returns the unsent value, which each constructor carries, and
`Callback` wraps the transport failure. -/
inductive Error (I C H : Type) where
  | TaskQueue : PendingCallback I C H → Error I C H
  | ItemQueue : I → Error I C H
  | Callback : FetchError → Error I C H

/-- The observable state of the two channels a crawl creates
(`src/spider.rs:170-171`): the bounded task queue and the unbounded item
stream.  `taskOpen`/`itemOpen` record whether the receiving side is still
alive (a tokio send fails exactly when the receiver is gone); the buffers
hold the values sent and not yet received, oldest first. -/
structure CrawlState (I C H : Type) where
  taskOpen : Bool
  taskBuf : List (PendingCallback I C H)
  itemOpen : Bool
  itemBuf : List I

/-- The outcome-routing loop inside `PendingCallback::run`
(`src/spider.rs:253-278`), factored out over the list of outcomes still to be
consumed.  An `Item` is sent on the item stream (`item_sender.send`,
line 256); on send failure the loop returns `Error::ItemQueue` without
consuming further outcomes.  A `Callback` is wrapped as a new
`PendingCallback` holding clones of this execution's two senders
(lines 265-269) and sent on the task queue (line 270); on send failure the
loop returns `Error::TaskQueue` without consuming further outcomes.  A send
on the bounded task queue may suspend for capacity, which in this sequential
model is a completed send. -/
def routeOutcomes {I C H : Type} (ts is : Nat) :
    List (Indeterminate I C H) → CrawlState I C H →
    CrawlState I C H × Option (Error I C H)
  | [], s => (s, none)
  | Indeterminate.item i :: rest, s =>
    if s.itemOpen then
      routeOutcomes ts is rest { s with itemBuf := s.itemBuf ++ [i] }
    else
      (s, some (Error.ItemQueue i))
  | Indeterminate.callback next :: rest, s =>
    let pending_next : PendingCallback I C H :=
      { inner := next, task_sender := ts, item_sender := is }
    if s.taskOpen then
      routeOutcomes ts is rest { s with taskBuf := s.taskBuf ++ [pending_next] }
    else
      (s, some (Error.TaskQueue pending_next))

/-- `PendingCallback::run` (`src/spider.rs:248-287`): run the inner callback;
on transport failure return `Error::Callback` (line 281) having produced
nothing; on success drain the handler's outcome stream through
`routeOutcomes`.  The returned pair is the channel state after the execution
and the error, if any, that ended it. -/
def PendingCallback.run {I C H : Type} (client : Client) (handle : Handler I C H)
    (pc : PendingCallback I C H) (s : CrawlState I C H) :
    CrawlState I C H × Option (Error I C H) :=
  match Callback.run client handle pc.inner with
  | Except.error e => (s, some (Error.Callback e))
  | Except.ok outs => routeOutcomes pc.task_sender pc.item_sender outs s

/-- The manager loop spawned by `Web::crawl` (`src/spider.rs:189-221`),
projected to a sequential schedule and bounded by fuel: while the task queue
is non-empty, dequeue the oldest `PendingCallback` and run it; an execution
that ends in an error is only logged (`src/spider.rs:197-207`) and the loop
moves on to the remaining tasks. -/
def crawlLoop {I C H : Type} (client : Client) (handle : Handler I C H) :
    Nat → CrawlState I C H → CrawlState I C H
  | 0, s => s
  | fuel + 1, s =>
    match s.taskBuf with
    | [] => s
    | pc :: rest =>
      crawlLoop client handle fuel
        (PendingCallback.run client handle pc { s with taskBuf := rest }).1

/-- `ParseError` (`src/util.rs:7-15`). -/
inductive ParseError where
  | NonUniqueElement : ParseError
  | NoElement : ParseError
  | MissingAttribute : String → ParseError

/-- The `for element in select` loop of `get_unique_element`
(`src/util.rs:167-173`): `found_element` starts as `None`, the first element
is stored, and a second element returns `Err(NonUniqueElement)` immediately,
leaving the rest of the iterator unconsumed. -/
def get_unique_element_loop {α : Type} (found_element : Option α) :
    List α → Except ParseError α
  | [] =>
    match found_element with
    | some value => Except.ok value
    | none => Except.error ParseError.NoElement
  | element :: rest =>
    match found_element with
    | none => get_unique_element_loop (some element) rest
    | some _ => Except.error ParseError.NonUniqueElement

/-- `get_unique_element` (`src/util.rs:164-178`), with the iterator's
remaining elements modelled as a list. -/
def get_unique_element {α : Type} (select : List α) : Except ParseError α :=
  get_unique_element_loop none select

/-- `std::num::NonZeroUsize`: a positive machine integer.  The builder's
`concurrent_requests` and `task_queue_size_bytes` fields have this type
(`src/spider.rs:82-83`), so both are positive by construction. -/
def NonZeroUsize : Type := { n : Nat // 0 < n }

/-- `WebBuilder` (`src/spider.rs:76-84`).  The `client` field is the stored
transport handle; `logger` is dropped (diagnostics only). -/
structure WebBuilder (I C H : Type) where
  client : Client
  start : Option Request
  handler : Option H
  context : Option C
  concurrent_requests : Option NonZeroUsize
  task_queue_size_bytes : Option NonZeroUsize

/-- `Spider::web` (`src/spider.rs:57-72`): a fresh builder with every
optional field unset. -/
def Spider.web {I C H : Type} (client : Client) : WebBuilder I C H :=
  { client := client
    start := none
    handler := none
    context := none
    concurrent_requests := none
    task_queue_size_bytes := none }

/-- Setter `WebBuilder::start` (`src/spider.rs:91-94`); named `set_start`
because the Lean field projection already takes the source name. -/
def WebBuilder.set_start {I C H : Type} (b : WebBuilder I C H) (start : Request) :
    WebBuilder I C H :=
  { b with start := some start }

/-- Setter `WebBuilder::handler` (`src/spider.rs:97-100`). -/
def WebBuilder.set_handler {I C H : Type} (b : WebBuilder I C H) (handler : H) :
    WebBuilder I C H :=
  { b with handler := some handler }

/-- Setter `WebBuilder::context` (`src/spider.rs:102-105`). -/
def WebBuilder.set_context {I C H : Type} (b : WebBuilder I C H) (context : C) :
    WebBuilder I C H :=
  { b with context := some context }

/-- Setter `WebBuilder::concurrent_requests` (`src/spider.rs:107-110`). -/
def WebBuilder.set_concurrent_requests {I C H : Type} (b : WebBuilder I C H)
    (concurrent_requests : NonZeroUsize) : WebBuilder I C H :=
  { b with concurrent_requests := some concurrent_requests }

/-- Setter `WebBuilder::task_queue_size_bytes` (`src/spider.rs:112-115`). -/
def WebBuilder.set_task_queue_size_bytes {I C H : Type} (b : WebBuilder I C H)
    (task_queue_size_bytes : NonZeroUsize) : WebBuilder I C H :=
  { b with task_queue_size_bytes := some task_queue_size_bytes }

/-- `Web` (`src/spider.rs:144-150`); `logger` is dropped (diagnostics
only). -/
structure Web (I C H : Type) where
  client : Client
  start : Callback I C H
  concurrent_requests : NonZeroUsize
  task_queue_size_bytes : NonZeroUsize

/-- `WebBuilder::build` (`src/spider.rs:118-141`).  The source calls
`.expect(...)` on `handler`, `start` and `context`, panicking when any of the
three is unset; a panic is modelled as `none`.  Unset `concurrent_requests`
defaults to 20 and unset `task_queue_size_bytes` to 10,000,000
(lines 133-138). -/
def WebBuilder.build {I C H : Type} (b : WebBuilder I C H) : Option (Web I C H) :=
  match b.handler, b.start, b.context with
  | some handler, some start, some context =>
    some
      { client := b.client
        start := Callback.new handler start context
        concurrent_requests :=
          b.concurrent_requests.getD ⟨20, by decide⟩
        task_queue_size_bytes :=
          b.task_queue_size_bytes.getD ⟨10000000, by decide⟩ }
  | _, _, _ => none

/-- A tokio mpsc channel at its interface boundary: the only datum the
claims depend on is its capacity; `none` means unbounded. -/
structure ChannelSpec where
  capacity : Option Nat

/-- `tokio::sync::mpsc::channel(buffer)` (imported at `src/spider.rs:14`): a
bounded channel. -/
def channel (buffer : Nat) : ChannelSpec :=
  { capacity := some buffer }

/-- `tokio::sync::mpsc::unbounded_channel()` (imported at
`src/spider.rs:14`): an unbounded channel. -/
def unbounded_channel : ChannelSpec :=
  { capacity := none }

/-- Whether a send on the channel suspends the sender: a bounded sender
waits exactly when the buffer already holds `capacity` values; an unbounded
sender never waits (`UnboundedSender::send` is not even `async`). -/
def sendSuspends (ch : ChannelSpec) (buffered : Nat) : Bool :=
  match ch.capacity with
  | none => false
  | some cap => decide (cap ≤ buffered)

/-- The task-queue entry count computed by `Web::crawl`
(`src/spider.rs:163-164`): `task_queue_size_bytes.get() /
size_of::<PendingCallback<I, C>>()`.  `size_of` is a platform- and
instantiation-dependent memory-layout constant, so it enters as the
parameter `entry_size`. -/
def Web.task_queue_size {I C H : Type} (w : Web I C H) (entry_size : Nat) : Nat :=
  w.task_queue_size_bytes.val / entry_size

/-- The bounded task-queue channel `Web::crawl` creates
(`src/spider.rs:171`): `channel(task_queue_size)`. -/
def Web.crawl_task_channel {I C H : Type} (w : Web I C H) (entry_size : Nat) :
    ChannelSpec :=
  channel (w.task_queue_size entry_size)

/-- The item-stream channel `Web::crawl` creates (`src/spider.rs:170`):
`unbounded_channel()`, whatever the configuration. -/
def Web.crawl_item_channel {I C H : Type} (_w : Web I C H) : ChannelSpec :=
  unbounded_channel

/-- The abstract dispatcher state of the manager task spawned by
`Web::crawl` (`src/spider.rs:189-221`): `queued` counts `PendingCallback`s
sitting in the task queue and not yet started, `inFlight` counts callback
executions spawned and not yet finished. -/
structure DispatchState where
  queued : Nat
  inFlight : Nat

/-- One step of the dispatcher, for a configured cap
(`concurrent_requests`).  `launch` models `buffer_unordered(cap)` polling the
inner task stream (`src/spider.rs:210-211`): the combinator pulls — and the
generator at line 196 thereby spawns — the next queued callback only while
fewer than `cap` pulled executions are unfinished.  `complete` models an
execution finishing, having submitted `spawned` follow-up callbacks to the
queue over its lifetime.  `discover` models a still-running execution (or
the initial seed send at `src/spider.rs:182-185`) adding one task to the
queue. -/
inductive DispatchStep (cap : Nat) : DispatchState → DispatchState → Prop where
  | launch : ∀ q f, f < cap →
      DispatchStep cap ⟨q + 1, f⟩ ⟨q, f + 1⟩
  | complete : ∀ q f spawned,
      DispatchStep cap ⟨q, f + 1⟩ ⟨q + spawned, f⟩
  | discover : ∀ q f,
      DispatchStep cap ⟨q, f⟩ ⟨q + 1, f⟩

/-- The channel the `#[handle]` macro expansion creates for the handler
body, `scrappy_do::channel(1)` (`scrappy_do-codegen/src/lib.rs:142`):
bounded, capacity one. -/
def yield_channel : ChannelSpec :=
  channel 1

/-- What one step of a converted `yield` does.  `ConvertYields` rewrites
`yield v` to `__yield_ind.send((v).into()).await.expect("live receiver")`
(`scrappy_do-codegen/src/lib.rs:77-89`). -/
inductive YieldStep (α : Type) where
  | panicked : YieldStep α
  | waits : YieldStep α
  | sent : α → YieldStep α

/-- Semantics of the rewritten `yield`, given whether the consuming side of
`yield_channel` is still alive and how many outcomes it has buffered: a
tokio send returns `Err` exactly when the receiver is gone, and
`.expect("live receiver")` turns that into a panic; otherwise the send
suspends while the channel is full, and delivers the value once there is
room. -/
def handle_yield {α : Type} (receiverOpen : Bool) (buffered : Nat) (v : α) :
    YieldStep α :=
  if receiverOpen = false then
    YieldStep.panicked
  else if sendSuspends yield_channel buffered then
    YieldStep.waits
  else
    YieldStep.sent v

/-- The items among a list of outcomes, in production order (what
`PendingCallback::run` forwards to the item stream). -/
def outcomeItems {I C H : Type} : List (Indeterminate I C H) → List I
  | [] => []
  | Indeterminate.item i :: rest => i :: outcomeItems rest
  | Indeterminate.callback _ :: rest => outcomeItems rest

/-- The follow-up callbacks among a list of outcomes, in production order
(what `PendingCallback::run` submits to the task queue). -/
def outcomeCallbacks {I C H : Type} :
    List (Indeterminate I C H) → List (Callback I C H)
  | [] => []
  | Indeterminate.item _ :: rest => outcomeCallbacks rest
  | Indeterminate.callback cb :: rest => cb :: outcomeCallbacks rest

/-- A sample transport that answers every request with a response. -/
def clientOk : Client :=
  fun r => Except.ok { url := r.url, body := "ok" }

/-- A sample transport that fails every request. -/
def clientDown : Client :=
  fun _ => Except.error { message := "down" }

/-- A sample handler producing an item, a follow-up callback, then another
item. -/
def handleSample : Handler Nat Nat Unit :=
  fun _ _ c =>
    [Indeterminate.item c,
     Indeterminate.callback (Callback.new () { url := "next" } (c + 1)),
     Indeterminate.item (c + 1)]

/-- A sample follow-up callback. -/
def cbSample : Callback Nat Nat Unit :=
  Callback.new () { url := "cb" } 2

/-- A sample pending callback bound to channel handles 5 and 7. -/
def pcSample : PendingCallback Nat Nat Unit :=
  { inner := Callback.new () { url := "seed" } 0
    task_sender := 5
    item_sender := 7 }

/-- A crawl state in which both receivers are alive and both buffers are
empty. -/
def sOpen : CrawlState Nat Nat Unit :=
  { taskOpen := true, taskBuf := [], itemOpen := true, itemBuf := [] }

/-- A crawl state in which both receivers are gone and one task is still
buffered. -/
def sClosed : CrawlState Nat Nat Unit :=
  { taskOpen := false, taskBuf := [pcSample], itemOpen := false, itemBuf := [] }

/-- A builder on which exactly the three required setters were called. -/
def builderSample : WebBuilder Nat Nat Unit :=
  ((Spider.web clientOk).set_start { url := "seed" }).set_handler () |>.set_context 0

/-- The web `builderSample.build` produces. -/
def webSample : Web Nat Nat Unit :=
  { client := clientOk
    start := Callback.new () { url := "seed" } 0
    concurrent_requests := ⟨20, by decide⟩
    task_queue_size_bytes := ⟨10000000, by decide⟩ }

/-- A web whose byte budget (1 byte) is smaller than any possible
`PendingCallback` entry. -/
def webTiny : Web Nat Nat Unit :=
  { client := clientOk
    start := Callback.new () { url := "seed" } 0
    concurrent_requests := ⟨20, by decide⟩
    task_queue_size_bytes := ⟨1, by decide⟩ }

/-- When both receivers are alive, the routing loop consumes every outcome,
appends the items to the item buffer and the wrapped callbacks to the task
buffer, both in production order, and reports no error. -/
theorem routeOutcomes_open {I C H : Type} (ts is : Nat)
    (outs : List (Indeterminate I C H)) :
    ∀ (s : CrawlState I C H), s.itemOpen = true → s.taskOpen = true →
      routeOutcomes ts is outs s =
        ({ s with
            itemBuf := s.itemBuf ++ outcomeItems outs
            taskBuf := s.taskBuf ++
              (outcomeCallbacks outs).map
                (fun cb =>
                  { inner := cb, task_sender := ts, item_sender := is }) },
         none) := by
  induction outs with
  | nil =>
    intro s hi ht
    simp [routeOutcomes, outcomeItems, outcomeCallbacks]
  | cons head rest ih =>
    intro s hi ht
    cases head with
    | item i =>
      rw [routeOutcomes, if_pos (by rw [hi])]
      rw [ih { s with itemBuf := s.itemBuf ++ [i] } hi ht]
      simp [outcomeItems, outcomeCallbacks, List.append_assoc]
    | callback cb =>
      rw [routeOutcomes, if_pos (by rw [ht])]
      rw [ih { s with taskBuf := s.taskBuf ++
          [{ inner := cb, task_sender := ts, item_sender := is }] } hi ht]
      simp [outcomeItems, outcomeCallbacks, List.append_assoc]

/-- Once the routing loop stops with an error, outcomes the handler would
have produced afterwards are never consumed: the result is unchanged by
anything appended to the outcome list. -/
theorem routeOutcomes_error_stops {I C H : Type} (ts is : Nat)
    (outs : List (Indeterminate I C H)) :
    ∀ (s s2 : CrawlState I C H) (err : Error I C H)
      (more : List (Indeterminate I C H)),
      routeOutcomes ts is outs s = (s2, some err) →
      routeOutcomes ts is (outs ++ more) s = (s2, some err) := by
  induction outs with
  | nil =>
    intro s s2 err more h
    simp [routeOutcomes] at h
  | cons head rest ih =>
    intro s s2 err more h
    cases head with
    | item i =>
      cases hio : s.itemOpen with
      | true =>
        rw [routeOutcomes, if_pos (by rw [hio])] at h
        rw [List.cons_append, routeOutcomes, if_pos (by rw [hio])]
        exact ih _ _ _ _ h
      | false =>
        rw [routeOutcomes, if_neg (by rw [hio]; exact Bool.false_ne_true)] at h
        rw [List.cons_append, routeOutcomes,
          if_neg (by rw [hio]; exact Bool.false_ne_true)]
        exact h
    | callback cb =>
      cases hto : s.taskOpen with
      | true =>
        rw [routeOutcomes, if_pos (by rw [hto])] at h
        rw [List.cons_append, routeOutcomes, if_pos (by rw [hto])]
        exact ih _ _ _ _ h
      | false =>
        rw [routeOutcomes, if_neg (by rw [hto]; exact Bool.false_ne_true)] at h
        rw [List.cons_append, routeOutcomes,
          if_neg (by rw [hto]; exact Bool.false_ne_true)]
        exact h

/-- Claim C1: for every successfully fetched callback execution with both
receivers alive, `PendingCallback::run` routes each outcome the handler
produced in production order — every `Item` outcome is forwarded to the item
stream, and every `Callback` outcome is wrapped as a new `PendingCallback`
carrying this execution's own `task_sender` and `item_sender` (the clones
taken at `src/spider.rs:267-268`) and is submitted to the task queue. -/
theorem C1_outcome_routing {I C H : Type} (client : Client)
    (handle : Handler I C H) (pc : PendingCallback I C H)
    (s : CrawlState I C H) (resp : Response)
    (hfetch : client pc.inner.request = Except.ok resp)
    (hitem : s.itemOpen = true) (htask : s.taskOpen = true) :
    PendingCallback.run client handle pc s =
      ({ s with
          itemBuf := s.itemBuf ++
            outcomeItems (handle pc.inner.handler resp pc.inner.context)
          taskBuf := s.taskBuf ++
            (outcomeCallbacks (handle pc.inner.handler resp pc.inner.context)).map
              (fun cb =>
                { inner := cb, task_sender := pc.task_sender,
                  item_sender := pc.item_sender }) },
       none) := by
  unfold PendingCallback.run Callback.run
  rw [hfetch]
  exact routeOutcomes_open pc.task_sender pc.item_sender _ s hitem htask

/-- Witness for C1 at a concrete execution: the sample handler yields
item 0, a follow-up callback, then item 1; the run forwards `[0, 1]` to the
item stream in order and queues one `PendingCallback` carrying the parent's
sender handles 5 and 7. -/
theorem C1_outcome_routing_witness :
    clientOk pcSample.inner.request = Except.ok { url := "seed", body := "ok" }
    ∧ sOpen.itemOpen = true
    ∧ sOpen.taskOpen = true
    ∧ PendingCallback.run clientOk handleSample pcSample sOpen =
        ({ taskOpen := true
           taskBuf := [{ inner := Callback.new () { url := "next" } 1,
                         task_sender := 5, item_sender := 7 }]
           itemOpen := true
           itemBuf := [0, 1] },
         none) :=
  ⟨rfl, rfl, rfl,
   (C1_outcome_routing clientOk handleSample pcSample sOpen
     { url := "seed", body := "ok" } rfl rfl rfl).trans rfl⟩

/-- Claim C3: a callback whose network fetch fails returns the
`Callback`-class error, leaves both channels exactly as they were (zero
items and zero follow-up callbacks are produced), and the handler is never
invoked — the result is the same for every possible handler capability
`handle`, which is therefore universally quantified while being absent from
the right-hand side. -/
theorem C3_fetch_failure_isolates {I C H : Type} (client : Client)
    (handle : Handler I C H) (pc : PendingCallback I C H)
    (s : CrawlState I C H) (e : FetchError)
    (hfetch : client pc.inner.request = Except.error e) :
    PendingCallback.run client handle pc s = (s, some (Error.Callback e)) := by
  unfold PendingCallback.run Callback.run
  rw [hfetch]

/-- Witness for C3 at a concrete execution: the failing transport makes the
run return the transport error and leave the open, empty state untouched. -/
theorem C3_fetch_failure_isolates_witness :
    clientDown pcSample.inner.request = Except.error { message := "down" }
    ∧ PendingCallback.run clientDown handleSample pcSample sOpen
        = (sOpen, some (Error.Callback { message := "down" })) :=
  ⟨rfl,
   C3_fetch_failure_isolates clientDown handleSample pcSample sOpen
     { message := "down" } rfl⟩

/-- Claim C4: failures of the two downstream sends are fatal to the one
execution but not to the crawl.  Conjunct 1: once the routing loop stops
with an error, outcomes the handler would have produced afterwards are
never consumed (the result ignores anything appended to the outcome list).
Conjunct 2: an `Item` outcome hitting a closed item stream ends the
execution with `Error::ItemQueue`.  Conjunct 3: a `Callback` outcome
hitting a closed task queue ends the execution with `Error::TaskQueue`,
losing exactly that wrapped continuation.  Conjunct 4: the manager loop of
`Web::crawl` merely logs an execution's result and continues with the
remaining queued tasks whether or not that run returned an error. -/
theorem C4_send_failure_semantics {I C H : Type} (ts is : Nat)
    (outs more : List (Indeterminate I C H)) (s : CrawlState I C H)
    (i : I) (cb : Callback I C H) (client : Client) (handle : Handler I C H)
    (pc : PendingCallback I C H) (rest : List (PendingCallback I C H))
    (fuel : Nat) :
    (∀ (s2 : CrawlState I C H) (err : Error I C H),
        routeOutcomes ts is outs s = (s2, some err) →
        routeOutcomes ts is (outs ++ more) s = (s2, some err))
    ∧ (s.itemOpen = false →
        routeOutcomes ts is (Indeterminate.item i :: outs) s
          = (s, some (Error.ItemQueue i)))
    ∧ (s.taskOpen = false →
        routeOutcomes ts is (Indeterminate.callback cb :: outs) s
          = (s, some (Error.TaskQueue
              { inner := cb, task_sender := ts, item_sender := is })))
    ∧ (s.taskBuf = pc :: rest →
        crawlLoop client handle (fuel + 1) s
          = crawlLoop client handle fuel
              (PendingCallback.run client handle pc
                { s with taskBuf := rest }).1) := by
  refine ⟨?_, ?_, ?_, ?_⟩
  · intro s2 err h
    exact routeOutcomes_error_stops ts is outs s s2 err more h
  · intro h
    rw [routeOutcomes, if_neg (by rw [h]; exact Bool.false_ne_true)]
  · intro h
    rw [routeOutcomes, if_neg (by rw [h]; exact Bool.false_ne_true)]
  · intro h
    cases s with
    | mk taskOpen taskBuf itemOpen itemBuf =>
      cases h
      rfl

/-- Witness for C4 at concrete data: in the state `sClosed` (both
receivers gone, one task still queued) every conjunct of
`C4_send_failure_semantics` applies, at outcome lists built from items 3
and 4 and the callback `cbSample`. -/
theorem C4_send_failure_semantics_witness :
    sClosed.itemOpen = false
    ∧ sClosed.taskOpen = false
    ∧ routeOutcomes 5 7 ([Indeterminate.item 4] ++ [Indeterminate.item 9]) sClosed
        = (sClosed, some (Error.ItemQueue 4))
    ∧ routeOutcomes 5 7 (Indeterminate.item 3 :: [Indeterminate.item 4]) sClosed
        = (sClosed, some (Error.ItemQueue 3))
    ∧ routeOutcomes 5 7 (Indeterminate.callback cbSample :: [Indeterminate.item 4])
        sClosed
        = (sClosed, some (Error.TaskQueue
            { inner := cbSample, task_sender := 5, item_sender := 7 }))
    ∧ crawlLoop clientDown handleSample 1 sClosed
        = crawlLoop clientDown handleSample 0
            (PendingCallback.run clientDown handleSample pcSample
              { sClosed with taskBuf := [] }).1 :=
  have T := C4_send_failure_semantics 5 7 [Indeterminate.item 4]
    [Indeterminate.item 9] sClosed 3 cbSample clientDown handleSample
    pcSample [] 0
  ⟨rfl, rfl, T.1 sClosed (Error.ItemQueue 4) rfl, T.2.1 rfl, T.2.2.1 rfl,
   T.2.2.2 rfl⟩

/-- Claim C5: a builder on which `concurrent_requests` and
`task_queue_size_bytes` were not set builds a `Web` whose concurrency limit
is 20 and whose task-queue byte budget is 10,000,000; and — by the
`NonZeroUsize` construction of those fields — every `Web`'s two parameters
are positive. -/
theorem C5_build_defaults {I C H : Type} (b : WebBuilder I C H) (w : Web I C H)
    (hc : b.concurrent_requests = none) (ht : b.task_queue_size_bytes = none)
    (hbuild : b.build = some w) :
    w.concurrent_requests.val = 20
    ∧ w.task_queue_size_bytes.val = 10000000
    ∧ (∀ (w2 : Web I C H),
        0 < w2.concurrent_requests.val ∧ 0 < w2.task_queue_size_bytes.val) := by
  cases hh : b.handler with
  | none => rw [WebBuilder.build, hh] at hbuild; exact absurd hbuild (by simp)
  | some handler =>
    cases hs : b.start with
    | none =>
      rw [WebBuilder.build, hh, hs] at hbuild; exact absurd hbuild (by simp)
    | some start =>
      cases hctx : b.context with
      | none =>
        rw [WebBuilder.build, hh, hs, hctx] at hbuild
        exact absurd hbuild (by simp)
      | some context =>
        rw [WebBuilder.build, hh, hs, hctx, hc, ht] at hbuild
        cases hbuild
        exact ⟨rfl, rfl, fun w2 =>
          ⟨w2.concurrent_requests.property, w2.task_queue_size_bytes.property⟩⟩

/-- Witness for C5: `builderSample` sets only the three required fields, and
building it yields `webSample` with limit 20 and budget 10,000,000. -/
theorem C5_build_defaults_witness :
    builderSample.concurrent_requests = none
    ∧ builderSample.task_queue_size_bytes = none
    ∧ builderSample.build = some webSample
    ∧ (webSample.concurrent_requests.val = 20
        ∧ webSample.task_queue_size_bytes.val = 10000000
        ∧ (∀ (w2 : Web Nat Nat Unit),
            0 < w2.concurrent_requests.val ∧ 0 < w2.task_queue_size_bytes.val)) :=
  ⟨rfl, rfl, rfl, C5_build_defaults builderSample webSample rfl rfl rfl⟩

/-- Claim C8: `WebBuilder::build` is partial — it panics (modelled: returns
`none`) exactly when one of `start`, `handler`, `context` is unset; and a
builder on which the three setters were called always builds. -/
theorem C8_build_partiality {I C H : Type} (b : WebBuilder I C H) :
    (b.build = none ↔ (b.start = none ∨ b.handler = none ∨ b.context = none))
    ∧ (∀ (r : Request) (hdl : H) (c : C),
        (((b.set_start r).set_handler hdl).set_context c).build.isSome = true) := by
  constructor
  · cases hh : b.handler <;> cases hs : b.start <;> cases hctx : b.context <;>
      simp [WebBuilder.build, hh, hs, hctx]
  · intro r hdl c
    simp [WebBuilder.build, WebBuilder.set_start, WebBuilder.set_handler,
      WebBuilder.set_context]

/-- Claim C2 as stated is false at an explicit input: the builder accepts
any positive byte budget, and for the configuration `webTiny` (budget 1
byte) with a per-entry footprint of 16 bytes the computed entry capacity is
`1 / 16 = 0`, so "this capacity is at least 1" fails. -/
theorem C2_capacity_counterexample :
    ¬ ((webTiny.crawl_task_channel 16).capacity
          = some (webTiny.task_queue_size_bytes.val / 16)
        ∧ 1 ≤ webTiny.task_queue_size 16) := by
  intro h
  exact absurd h.2 (by decide)

/-- Claim C2, amended: the task queue's entry capacity equals the configured
byte budget divided (flooring) by the per-entry size, and that capacity is
at least 1 exactly when the byte budget is at least the size of one entry —
the code puts no lower bound on it. -/
theorem C2_task_queue_capacity {I C H : Type} (w : Web I C H)
    (entry_size : Nat) (hpos : 0 < entry_size) :
    (w.crawl_task_channel entry_size).capacity
        = some (w.task_queue_size_bytes.val / entry_size)
    ∧ (1 ≤ w.task_queue_size entry_size
        ↔ entry_size ≤ w.task_queue_size_bytes.val) := by
  constructor
  · rfl
  · unfold Web.task_queue_size
    exact Nat.one_le_div_iff hpos

/-- Witness for the amended C2 at the concrete configuration `webTiny` with
entry size 16. -/
theorem C2_task_queue_capacity_witness :
    0 < 16
    ∧ ((webTiny.crawl_task_channel 16).capacity
          = some (webTiny.task_queue_size_bytes.val / 16)
        ∧ (1 ≤ webTiny.task_queue_size 16
            ↔ 16 ≤ webTiny.task_queue_size_bytes.val)) :=
  ⟨by decide, C2_task_queue_capacity webTiny 16 (by decide)⟩

/-- Claim C6: the item stream created by `Web::crawl` is the unbounded
channel, so a send on it never suspends the sending execution, however many
items are already buffered. -/
theorem C6_item_stream_never_blocks {I C H : Type} (w : Web I C H)
    (buffered : Nat) :
    (w.crawl_item_channel).capacity = none
    ∧ sendSuspends (w.crawl_item_channel) buffered = false :=
  ⟨rfl, rfl⟩

/-- Claim C7: from any dispatcher state within the concurrency cap, every
state the dispatcher can reach keeps the number of in-flight callback
executions at or below the configured `concurrent_requests` cap — `launch`
is guarded by `buffer_unordered`'s bound and the other steps do not increase
`inFlight`. -/
theorem C7_concurrency_cap (cap : Nat) (s0 s : DispatchState)
    (hreach : Relation.ReflTransGen (DispatchStep cap) s0 s)
    (hinit : s0.inFlight ≤ cap) :
    s.inFlight ≤ cap := by
  induction hreach with
  | refl => exact hinit
  | tail _ step ih =>
    cases step with
    | launch q f hf => exact hf
    | complete q f spawned => exact Nat.le_of_succ_le ih
    | discover q f => exact ih

/-- Witness for C7: with cap 1, from two queued tasks and none in flight,
one `launch` step reaches a state with one in flight, which is within the
cap. -/
theorem C7_concurrency_cap_witness :
    Relation.ReflTransGen (DispatchStep 1) ⟨2, 0⟩ ⟨1, 1⟩
    ∧ DispatchState.inFlight ⟨2, 0⟩ ≤ 1
    ∧ DispatchState.inFlight ⟨1, 1⟩ ≤ 1 :=
  have d : Relation.ReflTransGen (DispatchStep 1) ⟨2, 0⟩ ⟨1, 1⟩ :=
    Relation.ReflTransGen.single (DispatchStep.launch 1 0 (by decide))
  ⟨d, by decide, C7_concurrency_cap 1 ⟨2, 0⟩ ⟨1, 1⟩ d (by decide)⟩

/-- Claim C9: the `#[handle]` expansion pushes outcomes through the bounded
channel `scrappy_do::channel(1)` — capacity one — so a converted `yield`
suspends the handler body whenever the previous outcome is still buffered,
panics (via `.expect("live receiver")`) whenever the consuming execution
has dropped the receiver, and otherwise delivers the outcome. -/
theorem C9_yield_channel_semantics {α : Type} :
    yield_channel.capacity = some 1
    ∧ (∀ (v : α) (buffered : Nat), 1 ≤ buffered →
        handle_yield true buffered v = YieldStep.waits)
    ∧ (∀ (v : α) (buffered : Nat),
        handle_yield false buffered v = YieldStep.panicked)
    ∧ (∀ (v : α), handle_yield true 0 v = YieldStep.sent v) := by
  refine ⟨rfl, ?_, ?_, ?_⟩
  · intro v buffered hb
    simp [handle_yield, sendSuspends, yield_channel, channel, hb]
  · intro v buffered
    rfl
  · intro v
    rfl

/-- Witness for C9 at concrete data: yielding with one outcome already
buffered waits, yielding after the receiver is dropped panics, and yielding
into an empty live channel delivers the value. -/
theorem C9_yield_channel_semantics_witness :
    (1 : Nat) ≤ 1
    ∧ handle_yield true 1 (3 : Nat) = YieldStep.waits
    ∧ handle_yield false 0 (3 : Nat) = YieldStep.panicked
    ∧ handle_yield true 0 (3 : Nat) = YieldStep.sent 3 :=
  ⟨by decide, (@C9_yield_channel_semantics Nat).2.1 3 1 (by decide),
   (@C9_yield_channel_semantics Nat).2.2.1 3 0,
   (@C9_yield_channel_semantics Nat).2.2.2 3⟩

/-- Claim C10: `get_unique_element` returns `Err(NoElement)` on an empty
iterator, `Ok(x)` on the singleton `[x]`, and `Err(NonUniqueElement)` as
soon as a second element appears — the result for `x :: y :: rest` is the
same for every `rest`, which is the list counterpart of consuming at most
two elements of the iterator. -/
theorem C10_get_unique_element {α : Type} :
    get_unique_element ([] : List α) = Except.error ParseError.NoElement
    ∧ (∀ (x : α), get_unique_element [x] = Except.ok x)
    ∧ (∀ (x y : α) (rest : List α),
        get_unique_element (x :: y :: rest)
          = Except.error ParseError.NonUniqueElement) :=
  ⟨rfl, fun _ => rfl, fun _ _ _ => rfl⟩
